import Mathlib

/-!
# Verification of the per-guild playback-queue controller

A shallow embedding of the music-queue controller of the bot
(`spotify/spotifyPlayer.js` and the music commands), together with proofs
about the queue operations: enqueue (duplicate / capacity checks), the
track-advance function `playNextTrack` with its `processingNext`
mutual-exclusion flag, the idle / `end` / `exception` event handlers, and the
`skip`, `stop` and `volume` commands.

The repository contains two families of the controller: the `@discordjs/voice`
("play-dl") variant and the Lavalink ("shoukaku") variant.  Both are embedded
where a claim refers to them.  JavaScript truthiness of the `loop` field is
modelled explicitly because the repository assigns booleans *and* strings to
it.
-/

namespace MusicBot

/-- A track as stored in `queue.songs`.  Only the fields that the queue
logic inspects are modelled: `title` (messages), `url` (play-dl duplicate
check and stream fetch), `spotifyUrl` (primary duplicate identity) and
`lavalinkTrack` (the opaque playable token of the Lavalink variant;
`none` models a missing/falsy token). -/
structure Track where
  title : String
  url : String
  spotifyUrl : Option String
  lavalinkTrack : Option String
deriving DecidableEq, Repr

/-- The JavaScript values the repository assigns to `queue.loop`:
`false`/`true` (createGuildQueue, the loop button) and strings
(`stop.js` assigns `'off'`, `skip.js` compares against `'queue'`). -/
inductive LoopVal where
  | bool (b : Bool)
  | str (s : String)
deriving DecidableEq, Repr

/-- JavaScript truthiness of a `loop` value: booleans are themselves,
a string is truthy iff it is non-empty.  Every loop check in the player
(`if (queue.loop && ...)`) uses truthiness. -/
def LoopVal.truthy : LoopVal → Bool
  | .bool b => b
  | .str s => !s.isEmpty

/-- The per-guild queue object (`queueConstruct`).  Runtime handles
(text channel, voice connection, player, now-playing message, timers) are
modelled separately where a claim needs them. -/
structure GuildQueue where
  songs : List Track
  currentTrack : Option Track
  playing : Bool
  loop : LoopVal
  volume : Int
  processingNext : Bool
deriving DecidableEq, Repr

/-- `config.music.maxQueueSize` from `config.js`. -/
def musicMaxQueueSize : Nat := 100

/-- `config.music.defaultVolume` from `config.js`. -/
def musicDefaultVolume : Int := 50

/-- The duplicate identity used by `addToQueue` (play-dl variant,
`spotifyPlayer.js`): equal catalog (Spotify) URLs when both tracks carry
one, else equal source URLs when both lack one; a pair where exactly one
track carries a catalog URL is never a duplicate. -/
def isDuplicate (s songData : Track) : Bool :=
  match s.spotifyUrl, songData.spotifyUrl with
  | some a, some b => a = b
  | none, none => s.url = songData.url
  | _, _ => false

/-- `addToQueue` (play-dl variant): reject duplicates, reject when the
queue already holds `maxQueueSize` tracks, otherwise append.  Returns the
updated queue and the `addedCount` field of the result object. -/
def addToQueue (queue : GuildQueue) (songData : Track) : GuildQueue × Nat :=
  if queue.songs.any (fun s => isDuplicate s songData) then (queue, 0)
  else if queue.songs.length ≥ musicMaxQueueSize then (queue, 0)
  else ({ queue with songs := queue.songs ++ [songData] }, 1)

/-- Duplicate identity of the Lavalink `addToQueue` variant: equality of
the encoded Lavalink track tokens when both are present. -/
def isDuplicateL (s songData : Track) : Bool :=
  match s.lavalinkTrack, songData.lavalinkTrack with
  | some a, some b => a = b
  | _, _ => false

/-- `addToQueue` (Lavalink variant): same shape as the play-dl variant but
with the Lavalink duplicate identity. -/
def addToQueueL (queue : GuildQueue) (songData : Track) : GuildQueue × Nat :=
  if queue.songs.any (fun s => isDuplicateL s songData) then (queue, 0)
  else if queue.songs.length ≥ musicMaxQueueSize then (queue, 0)
  else ({ queue with songs := queue.songs ++ [songData] }, 1)

/-- `handleIdleState` (play-dl variant): runs when the audio player
transitions to Idle.  Captures the old current track, clears
`currentTrack` / `playing`, and — when `loop` is truthy — pushes the old
track to the *back* of `songs` (`queue.songs.push(oldTrack)`).  The
scheduled 100 ms follow-up that decides between `playNextTrack` and
`handleQueueEnd` is modelled by `idleFollowUpAdvances`. -/
def handleIdleState (q : GuildQueue) : GuildQueue :=
  let oldTrack := q.currentTrack
  let q1 : GuildQueue := { q with currentTrack := none, playing := false }
  match oldTrack with
  | some t => if q1.loop.truthy then { q1 with songs := q1.songs ++ [t] } else q1
  | none => q1

/-- The deferred body of `handleIdleState`'s `setTimeout`: with the player
still idle, it calls `playNextTrack` iff `songs` is non-empty (else
`handleQueueEnd`). -/
def idleFollowUpAdvances (q : GuildQueue) : Bool :=
  !q.songs.isEmpty

/-- Result of `skip.execute` (`commands/music/skip.js`). -/
inductive SkipResult where
  /-- precondition failure: no current track (early ephemeral reply). -/
  | noTrack
  /-- `queue.player.stop(true)` was issued; the idle listener will react. -/
  | stopIssued
deriving DecidableEq, Repr

/-- `skip.execute`: after its pre-checks it only calls
`queue.player.stop(true)`; it performs no queue mutation and does not call
`playNextTrack` itself (the Idle state-change listener does, via
`handleIdleState`). -/
def skipExecute (q : GuildQueue) : GuildQueue × SkipResult :=
  match q.currentTrack with
  | none => (q, .noTrack)
  | some _ => (q, .stopIssued)

/-- Status of the guild's voice connection as `stop.js` distinguishes it:
`connection && connection.state.status !== 'destroyed'` takes the
destroy-and-let-the-listener-clean-up path. -/
inductive ConnStatus where
  | live
  | destroyed
deriving DecidableEq, Repr

/-- One guild's slot in the `client.queues` store, together with the
voice-connection handle (`none` models `queue.connection == null`). -/
structure GuildSlot where
  queue : Option GuildQueue
  conn : Option ConnStatus
deriving DecidableEq, Repr

/-- The `VoiceConnectionStatus.Destroyed` listener installed by
`startPlayback`: force-stops the player, clears `playing` and the
connection reference, and deletes the Queue State from the store. -/
def onConnDestroyed (slot : GuildSlot) : GuildSlot :=
  match slot.queue with
  | some _ => { queue := none, conn := some .destroyed }
  | none => { slot with conn := some .destroyed }

/-- `stop.execute` (`commands/music/stop.js`): clears `songs`, assigns the
string `'off'` to `loop`, clears `currentTrack`/`playing`; then either
destroys the live connection (so the Destroyed listener removes the queue
from the store) or deletes the queue from the store directly.  Returns the
resulting slot together with the mutated queue object (which outlives its
removal from the store). -/
def stopExecute (slot : GuildSlot) : GuildSlot × Option GuildQueue :=
  match slot.queue with
  | none => (slot, none)
  | some q =>
    let q' : GuildQueue :=
      { q with songs := [], loop := .str "off", currentTrack := none, playing := false }
    match slot.conn with
    | some .live => (onConnDestroyed { queue := some q', conn := some .live }, some q')
    | _ => ({ queue := none, conn := slot.conn }, some q')

/-- Lavalink `end`-event reasons the listener distinguishes
(`data.reason`): `'REPLACED'` and `'STOPPED'` are special-cased, every
other reason (in particular `'FINISHED'`) takes the advance path. -/
inductive EndReason where
  | finished
  | replaced
  | stopped
deriving DecidableEq, Repr

/-- What the Lavalink `end`/`exception` listener does after mutating the
queue.  `refErrorQueues` records that the listener evaluates the bare
identifier `queues` — which is not bound anywhere in
`setupPlayerListeners`'s scope (its parameters are `player, client,
guildId`) nor at module level — so the intended call throws a
`ReferenceError` instead of running. -/
inductive ListenerOutcome where
  /-- `playNextTrack(guildId, client.queues, client)` is invoked. -/
  | advanced
  /-- `handleQueueEnd(queue, queues, client)` or
  `playNextTrack(guildId, queues, client)`: evaluating `queues` raises
  `ReferenceError`; no call is made. -/
  | refErrorQueues
  | nothing
deriving DecidableEq, Repr

/-- The Lavalink `player.on('end')` listener: for a reason that is neither
`REPLACED` nor `STOPPED` it clears `currentTrack`/`playing`, and when
`loop` is truthy re-inserts the ended track at the *front* of `songs`
(`queue.songs.unshift(endedTrack)`); it then calls
`playNextTrack(guildId, client.queues, client)` when `songs` is non-empty,
else `handleQueueEnd(queue, queues, client)` (whose `queues` argument is
an unbound identifier).  For `STOPPED` it clears state and likewise
reaches the unbound `queues`; for `REPLACED` it does nothing. -/
def onTrackEnd (q : GuildQueue) (reason : EndReason) : GuildQueue × ListenerOutcome :=
  match reason with
  | .replaced => (q, .nothing)
  | .stopped =>
    ({ q with currentTrack := none, playing := false }, .refErrorQueues)
  | .finished =>
    let ended := q.currentTrack
    let q1 : GuildQueue := { q with currentTrack := none, playing := false }
    let q2 : GuildQueue :=
      match ended with
      | some t => if q1.loop.truthy then { q1 with songs := t :: q1.songs } else q1
      | none => q1
    if q2.songs.isEmpty then (q2, .refErrorQueues) else (q2, .advanced)

/-- The Lavalink `player.on('exception')` listener: sends an error message,
captures and clears `currentTrack`, clears `playing`, and when `loop` is
truthy pushes the failed track to the *back* of `songs`
(`queue.songs.push(failedTrack)`).  Both follow-up branches —
`playNextTrack(guildId, queues, client)` and
`handleQueueEnd(queue, queues, client)` — evaluate the unbound identifier
`queues`, so neither call is ever made. -/
def onException (q : GuildQueue) : GuildQueue × ListenerOutcome :=
  let failed := q.currentTrack
  let q1 : GuildQueue := { q with currentTrack := none, playing := false }
  let q2 : GuildQueue :=
    match failed with
    | some t => if q1.loop.truthy then { q1 with songs := q1.songs ++ [t] } else q1
    | none => q1
  (q2, .refErrorQueues)

/-- Environment of the Lavalink `playNextTrack`: outcomes of the external
calls it performs.  `playResults` are the successive outcomes of
`player.node.rest.updatePlayer` (`true` = the command is accepted);
`refreshResults` are the successive outcomes of the `getLavalinkPlayer`
refresh attempted in the catch block (`true` = a player is obtained);
`playerReady` models the initial
`player && player.connection && token && endpoint && sessionId` guard.
Exhausted lists default to failure. -/
structure LEnv where
  playResults : List Bool
  refreshResults : List Bool
  playerReady : Bool
deriving DecidableEq, Repr

/-- Result of a (possibly recursive) run of the Lavalink `playNextTrack`:
the final queue, the unconsumed environment, the tracks for which an
`updatePlayer` play command was issued (in order, repeats included), the
tracks whose failure was surfaced to the text channel, and whether
`handleQueueEnd` ran. -/
structure LResult where
  queue : GuildQueue
  env : LEnv
  attempts : List Track
  surfaced : List Track
  queueEnded : Bool
deriving DecidableEq, Repr

/-- `handleQueueEnd` (Lavalink variant): clears `playing` and
`currentTrack` (message/timer handling is not queue state). -/
def handleQueueEnd (q : GuildQueue) : GuildQueue :=
  { q with playing := false, currentTrack := none }

/-- The Lavalink `playNextTrack(guildId, queues, client)`, fuel-indexed to
model its retry-by-recursion (each recursive call happens after
`processingNext` was reset, so running out of fuel returns the state
unchanged).  Paths, in source order: duplicate-call guard on
`processingNext`; empty queue → `handleQueueEnd`; missing player /
connection details → plain return; set `processingNext`, shift the next
song into `currentTrack`; missing `lavalinkTrack` token → surface, clear,
reset flag, recurse; `updatePlayer` success → reset flag; `updatePlayer`
failure → refresh the player, and on refresh success unshift the track
back and recurse (retry), on refresh failure surface the error, re-queue
the track at the back when `loop` is truthy, reset the flag and recurse
to the next track. -/
def playNextTrackL : Nat → LEnv → GuildQueue → LResult
  | 0, env, q => ⟨q, env, [], [], false⟩
  | fuel + 1, env, q =>
    if q.processingNext then ⟨q, env, [], [], false⟩
    else
      match q.songs with
      | [] => ⟨handleQueueEnd q, env, [], [], true⟩
      | t :: rest =>
        if !env.playerReady then ⟨q, env, [], [], false⟩
        else
          let q1 : GuildQueue :=
            { q with processingNext := true, currentTrack := some t, songs := rest }
          match t.lavalinkTrack with
          | none =>
            let q2 : GuildQueue := { q1 with currentTrack := none, processingNext := false }
            let r := playNextTrackL fuel env q2
            { r with surfaced := t :: r.surfaced }
          | some _ =>
            let ok := env.playResults.headD false
            let env1 : LEnv := { env with playResults := env.playResults.tail }
            if ok then
              ⟨{ q1 with processingNext := false }, env1, [t], [], false⟩
            else
              let refreshed := env1.refreshResults.headD false
              let env2 : LEnv := { env1 with refreshResults := env1.refreshResults.tail }
              if refreshed then
                let q2 : GuildQueue :=
                  { q1 with songs := t :: q1.songs, currentTrack := none,
                            processingNext := false }
                let r := playNextTrackL fuel env2 q2
                { r with attempts := t :: r.attempts }
              else
                let q2base : GuildQueue :=
                  { q1 with currentTrack := none, processingNext := false }
                let q2 : GuildQueue :=
                  if q1.loop.truthy then { q2base with songs := q2base.songs ++ [t] }
                  else q2base
                let r := playNextTrackL fuel env2 q2
                { r with attempts := t :: r.attempts, surfaced := t :: r.surfaced }

/-- `url.includes('youtube.com')` from the play-dl `playNextTrack`'s URL
validation. -/
def urlIncludesYoutube (u : String) : Bool :=
  (u.splitOn "youtube.com").length != 1

/-- Exit taken by a run of the play-dl `playNextTrack`. -/
inductive DOut where
  /-- invalid voice connection: the queue is deleted from the store. -/
  | deleted
  /-- empty queue: `handleQueueEnd` ran. -/
  | queueEnd
  /-- `processingNext` already set: immediate return. -/
  | alreadyProcessing
  /-- `queue.player.play(resource)` was issued. -/
  | played
  /-- stream fetch / URL validation failed: error surfaced, track dropped
  (re-queued at the back when `loop` is truthy). -/
  | failedSkip
deriving DecidableEq, Repr

/-- The play-dl `playNextTrack(guildId, queues)` as one atomic run
(its interleaving-sensitive segments are modelled separately by `segStep`).
`connLive` models the voice-connection validity guard, `streamOk` the
outcome of `play.stream`, `playerIdle` whether the audio player is Idle
when the catch block runs (Idle ⇒ `handleIdleState` is called directly,
otherwise `player.stop(true)` re-triggers it asynchronously).  The
`finally` clause resets `processingNext` on every path that set it. -/
def playNextTrackD (connLive streamOk playerIdle : Bool) (q : GuildQueue) :
    GuildQueue × DOut :=
  if !connLive then (q, .deleted)
  else if q.songs.isEmpty && q.currentTrack = none then
    ({ q with playing := false, currentTrack := none }, .queueEnd)
  else if q.processingNext then (q, .alreadyProcessing)
  else
    let body : GuildQueue → Track → GuildQueue × DOut := fun q2 t =>
      if urlIncludesYoutube t.url && streamOk then
        ({ q2 with processingNext := false }, .played)
      else
        let q3 : GuildQueue := { q2 with currentTrack := none }
        let q4 : GuildQueue :=
          if q3.loop.truthy then { q3 with songs := q3.songs ++ [t] } else q3
        let q5 : GuildQueue := if playerIdle then handleIdleState q4 else q4
        ({ q5 with processingNext := false }, .failedSkip)
    let q1 : GuildQueue := { q with processingNext := true }
    match q1.currentTrack, q1.songs with
    | none, [] =>
      ({ q1 with processingNext := false, playing := false }, .queueEnd)
    | none, t :: rest =>
      body { q1 with currentTrack := some t, songs := rest } t
    | some t, _ => body q1 t

/-- State shared by racing invocations of the play-dl `playNextTrack`,
instrumented with the number of `player.play` commands issued and the
number of tracks shifted out of `songs`. -/
structure RaceState where
  q : GuildQueue
  connLive : Bool
  playCount : Nat
  popCount : Nat
  deleted : Bool
deriving DecidableEq, Repr

/-- Progress of one `playNextTrack` invocation between its `await`
suspension points. -/
inductive Phase where
  /-- not yet run. -/
  | ready
  /-- suspended at `await updateNowPlayingMessage(queue)` (line after the
  guard/flag/shift prefix, which is synchronous). -/
  | atNpAwait
  /-- suspended at `await play.stream(...)`. -/
  | atStreamAwait
  | done
deriving DecidableEq, Repr

/-- One atomic segment of the play-dl `playNextTrack` (success path).
From `ready`: connection guard, empty-queue guard, `processingNext` guard,
set the flag, shift the head of `songs` into `currentTrack` when
`currentTrack` is null; then suspend.  The final segment creates the
resource, applies the volume, issues `player.play` and runs the `finally`
reset of `processingNext`. -/
def segStep : Phase → RaceState → Phase × RaceState
  | .ready, s =>
    if !s.connLive then (.done, { s with deleted := true })
    else if s.q.songs.isEmpty && s.q.currentTrack = none then
      (.done, { s with q := { s.q with playing := false, currentTrack := none } })
    else if s.q.processingNext then (.done, s)
    else
      let q1 : GuildQueue := { s.q with processingNext := true }
      match q1.currentTrack, q1.songs with
      | some _, _ => (.atNpAwait, { s with q := q1 })
      | none, [] =>
        (.done, { s with q := { q1 with processingNext := false, playing := false } })
      | none, t :: rest =>
        (.atNpAwait,
         { s with q := { q1 with currentTrack := some t, songs := rest },
                  popCount := s.popCount + 1 })
  | .atNpAwait, s => (.atStreamAwait, s)
  | .atStreamAwait, s =>
    (.done, { s with playCount := s.playCount + 1,
                     q := { s.q with processingNext := false } })
  | .done, s => (.done, s)

/-- Two racing `playNextTrack` invocations over one shared queue. -/
structure RaceSys where
  st : RaceState
  p1 : Phase
  p2 : Phase
deriving DecidableEq, Repr

/-- Run one segment of the chosen invocation (`true` picks the first). -/
def sysStep (sys : RaceSys) (pickFirst : Bool) : RaceSys :=
  if pickFirst then
    let (p, st) := segStep sys.p1 sys.st
    { sys with p1 := p, st := st }
  else
    let (p, st) := segStep sys.p2 sys.st
    { sys with p2 := p, st := st }

/-- Run a schedule (a list of picks) over the racing pair. -/
def runSched (sched : List Bool) (sys : RaceSys) : RaceSys :=
  sched.foldl sysStep sys

/-- The two overlapping interleavings of two concurrently triggered
`playNextTrack` calls: the second call's synchronous prefix runs either
while the first is parked at `await updateNowPlayingMessage` (same-tick
trigger) or at `await play.stream` (slightly later trigger); either way it
runs before the first call completes. -/
def raceSched (late : Bool) : List Bool :=
  if late then [true, true, false, true] else [true, false, true, true]

/-- User-facing / event-driven operations on one guild's queue (Lavalink
variant), used to replay operation sequences. -/
inductive MusicOp where
  /-- `addToQueue` (Lavalink variant). -/
  | enqueue (t : Track)
  /-- one `playNextTrack` run whose `updatePlayer` command is accepted. -/
  | advance
  /-- the `music_loop` button: `queue.loop = !queue.loop`. -/
  | toggleLoop
  /-- the `player.on('end')` listener with reason `FINISHED`. -/
  | trackEnd
deriving DecidableEq, Repr

/-- Apply one operation to the queue. -/
def applyOp (q : GuildQueue) : MusicOp → GuildQueue
  | .enqueue t => (addToQueueL q t).1
  | .advance => (playNextTrackL 1 ⟨[true], [], true⟩ q).queue
  | .toggleLoop => { q with loop := .bool (!q.loop.truthy) }
  | .trackEnd => (onTrackEnd q .finished).1

/-- Replay a sequence of operations. -/
def runOps (ops : List MusicOp) (q : GuildQueue) : GuildQueue :=
  ops.foldl applyOp q

/-- Outcome of the `/volume` command for a given `level` input. -/
inductive VolumeOutcome where
  /-- outside the declared option bounds `setMinValue(1)`/`setMaxValue(100)`
  of `commands/music/volume.js`: the platform rejects the input and
  `execute` never runs. -/
  | rejected
  /-- `queue.volume = level` was stored and the now-playing message
  refreshed; `inline` records whether a live resource's volume was also
  adjusted immediately via `setVolumeLogarithmic(level / 100)`. -/
  | applied (inline : Bool)
deriving DecidableEq, Repr

/-- The `/volume` command: the integer option carries `setMinValue(1)` and
`setMaxValue(100)`, so out-of-range levels never reach `execute`; in range,
`execute` adjusts the live resource's volume when one exists
(`resourceLive`) and always stores `queue.volume = level`. -/
def executeVolume (q : GuildQueue) (resourceLive : Bool) (level : Int) :
    GuildQueue × VolumeOutcome :=
  if level < 1 || level > 100 then (q, .rejected)
  else ({ q with volume := level }, .applied resourceLive)

/-- The volume the play-dl `playNextTrack` applies to a fresh audio
resource: `queue.volume / 100 || 0.5` (the JavaScript `||` falls back to
`0.5` exactly when the quotient is `0`). -/
def appliedVolume (q : GuildQueue) : ℚ :=
  let v : ℚ := (q.volume : ℚ) / 100
  if v = 0 then 1 / 2 else v

/-! ## Concrete tracks and states used by counterexamples and witnesses -/

/-- A concrete track with a Spotify URL and a Lavalink token. -/
def trackA : Track := ⟨"A", "https://youtube.com/a", some "spA", some "tokA"⟩

/-- A second concrete track, distinct from `trackA` in every identity. -/
def trackB : Track := ⟨"B", "https://youtube.com/b", some "spB", some "tokB"⟩

/-- A track that carries the same Spotify URL as `trackA` but a different
source URL (resolved differently), hence a duplicate of `trackA` under the
enqueue identity. -/
def trackA' : Track := ⟨"A again", "https://youtube.com/a2", some "spA", some "tokA2"⟩

/-- The `i`-th distinct track of the cap counterexample. -/
def mkTrack (i : Nat) : Track :=
  ⟨"t" ++ Nat.repr i, "u" ++ Nat.repr i, none, some ("k" ++ Nat.repr i)⟩

/-- Fill the queue to the cap, advance (current leaves `pending`), enqueue
one more track, enable loop, then let the current track end naturally. -/
def capOps : List MusicOp :=
  ((List.range musicMaxQueueSize).map fun i => MusicOp.enqueue (mkTrack i)) ++
    [.advance, .enqueue (mkTrack musicMaxQueueSize), .toggleLoop, .trackEnd]

/-- The queue contents at the cap used by the C6 witness. -/
def fullSongs : List Track := (List.range musicMaxQueueSize).map mkTrack

/-! ## C5 — duplicate enqueue is a no-op -/

/-- C5: enqueueing a track draft whose identity — the Spotify/catalog URL
when both tracks carry one, otherwise the source URL when both lack one —
matches some track already in `pending` is a no-op: `addToQueue` returns
the queue unchanged (so its length is unchanged) with `addedCount = 0`. -/
theorem enqueue_duplicate_noop (q : GuildQueue) (t : Track)
    (h : q.songs.any (fun s => isDuplicate s t) = true) :
    addToQueue q t = (q, 0) := by
  simp [addToQueue, h]

/-- Witness for C5: the queue `[trackA]` rejects `trackA'`, which shares
only `trackA`'s Spotify URL. -/
theorem enqueue_duplicate_noop_witness :
    ((GuildQueue.mk [trackA] none false (.bool false) 50 false).songs.any
        (fun s => isDuplicate s trackA') = true) ∧
    addToQueue (GuildQueue.mk [trackA] none false (.bool false) 50 false) trackA' =
      (GuildQueue.mk [trackA] none false (.bool false) 50 false, 0) :=
  ⟨by decide,
   enqueue_duplicate_noop (GuildQueue.mk [trackA] none false (.bool false) 50 false)
     trackA' (by decide)⟩

/-! ## C9 — volume validation and application -/

/-- C9: the `/volume` command's level is validated against 1–100 (via the
declared option bounds): level 0 and level 101 are rejected with the
stored volume unchanged; level 50 stores `volume = 50`, adjusts a live
resource when one is playing, and the volume applied to the next audio
resource (`queue.volume / 100 || 0.5`) is `1/2`. -/
theorem volume_range_validated (q : GuildQueue) (resourceLive : Bool) :
    executeVolume q resourceLive 0 = (q, .rejected) ∧
    executeVolume q resourceLive 101 = (q, .rejected) ∧
    (executeVolume q resourceLive 50).1.volume = 50 ∧
    (executeVolume q resourceLive 50).2 = .applied resourceLive ∧
    appliedVolume (executeVolume q resourceLive 50).1 = 1 / 2 := by
  refine ⟨by simp [executeVolume], by simp [executeVolume], ?_, ?_, ?_⟩
  · simp [executeVolume]
  · simp [executeVolume]
  · simp [executeVolume, appliedVolume]
    norm_num

/-! ## C3 — what skip actually does -/

/-- C3 counterexample: on the queue with `loop` enabled, `currentTrack = A`
and `pending = [B]`, the skip handler itself discards nothing and advances
nothing — it returns the queue unchanged after issuing `player.stop(true)`
— and it is the Idle listener (`handleIdleState`) that both re-inserts the
skipped track (at the back, via its loop re-insertion logic) and triggers
the advance. -/
theorem skip_defers_to_idle_handler_cex :
    skipExecute (GuildQueue.mk [trackB] (some trackA) true (.bool true) 50 false) =
      (GuildQueue.mk [trackB] (some trackA) true (.bool true) 50 false, .stopIssued) ∧
    (skipExecute (GuildQueue.mk [trackB] (some trackA) true (.bool true) 50 false)).1.currentTrack
      = some trackA ∧
    handleIdleState (GuildQueue.mk [trackB] (some trackA) true (.bool true) 50 false) =
      GuildQueue.mk [trackB, trackA] none false (.bool true) 50 false ∧
    idleFollowUpAdvances
      (handleIdleState (GuildQueue.mk [trackB] (some trackA) true (.bool true) 50 false))
      = true := by
  decide

/-- C3 amended: `skip()` mutates no queue state itself — it force-stops
the player — and the subsequent Idle handler discards the current track,
re-inserts it at the back of `pending` exactly once when `loop` is
enabled (never when `loop` is off), and its follow-up is what invokes the
advance (here always, since the loop re-insertion leaves `pending`
non-empty). -/
theorem skip_contract_amended (a : Track) (songs : List Track) (pl : Bool) (vol : Int) :
    (∀ lp pn, skipExecute (GuildQueue.mk songs (some a) pl lp vol pn) =
        (GuildQueue.mk songs (some a) pl lp vol pn, .stopIssued)) ∧
    handleIdleState (GuildQueue.mk songs (some a) pl (.bool true) vol false) =
      GuildQueue.mk (songs ++ [a]) none false (.bool true) vol false ∧
    handleIdleState (GuildQueue.mk songs (some a) pl (.bool false) vol false) =
      GuildQueue.mk songs none false (.bool false) vol false ∧
    idleFollowUpAdvances
      (handleIdleState (GuildQueue.mk songs (some a) pl (.bool true) vol false)) = true := by
  refine ⟨fun lp pn => rfl, rfl, rfl, ?_⟩
  simp [handleIdleState, idleFollowUpAdvances, LoopVal.truthy]

/-! ## C4 — what stop leaves behind -/

/-- C4, the code evaluated at the failing input: `stop.execute` does clear
`pending`, clear `currentTrack` and remove the Queue State from the store
on both the live-connection path and the no-connection path, but it
assigns the *string* `'off'` to `loop`, and that string is truthy — every
loop check in the player (`if (queue.loop && ...)`) therefore still treats
looping as enabled, contradicting "loop mode is off" (and the source's own
comment that `loop` is a boolean). -/
theorem stop_leaves_loop_truthy :
    (stopExecute ⟨some (GuildQueue.mk [trackB] (some trackA) true (.bool false) 50 false),
        some .live⟩).1.queue = none ∧
    (stopExecute ⟨some (GuildQueue.mk [trackB] (some trackA) true (.bool false) 50 false),
        none⟩).1.queue = none ∧
    (stopExecute ⟨some (GuildQueue.mk [trackB] (some trackA) true (.bool false) 50 false),
        some .live⟩).2 =
      some (GuildQueue.mk [] none false (.str "off") 50 false) ∧
    LoopVal.truthy (.str "off") = true := by
  decide

/-! ## C7 — the exception listener never reaches its advance call -/

/-- C7, the code evaluated at the failing input: with `loop` enabled,
`currentTrack = A` and `pending = [B]`, the `exception` listener clears
the current track and re-queues it at the back (`pending = [B, A]`), but
its follow-up `playNextTrack(guildId, queues, client)` evaluates the
identifier `queues`, which is unbound in `setupPlayerListeners`, so a
`ReferenceError` is raised and the advance is never invoked. -/
theorem exception_handler_never_advances :
    onException (GuildQueue.mk [trackB] (some trackA) true (.bool true) 50 false) =
      (GuildQueue.mk [trackB, trackA] none false (.bool true) 50 false,
       .refErrorQueues) := by
  decide

/-! ## C2 — natural end with loop: front re-insertion, then advance -/

/-- C2: with `loop` enabled (the single-track loop of the Lavalink
listener) and a current track `a`, the `end(FINISHED)` handler re-inserts
`a` at the front of `pending` exactly once (`pending` becomes
`a :: songs`) and invokes `playNextTrack`; that advance (with the play
command accepted) makes the same track `a` current again and restores
`pending` to `songs`. -/
theorem loop_finished_front_requeue (ti u : String) (sp : Option String)
    (tok : String) (songs : List Track) (pl : Bool) (vol : Int) :
    (onTrackEnd (GuildQueue.mk songs (some (Track.mk ti u sp (some tok))) pl
        (.bool true) vol false) .finished).2 = .advanced ∧
    (onTrackEnd (GuildQueue.mk songs (some (Track.mk ti u sp (some tok))) pl
        (.bool true) vol false) .finished).1 =
      GuildQueue.mk (Track.mk ti u sp (some tok) :: songs) none false (.bool true) vol false ∧
    (playNextTrackL 1 ⟨[true], [], true⟩
        (onTrackEnd (GuildQueue.mk songs (some (Track.mk ti u sp (some tok))) pl
          (.bool true) vol false) .finished).1).queue =
      GuildQueue.mk songs (some (Track.mk ti u sp (some tok))) false (.bool true) vol false ∧
    (playNextTrackL 1 ⟨[true], [], true⟩
        (onTrackEnd (GuildQueue.mk songs (some (Track.mk ti u sp (some tok))) pl
          (.bool true) vol false) .finished).1).attempts =
      [Track.mk ti u sp (some tok)] :=
  ⟨rfl, rfl, rfl, rfl⟩

/-! ## C6 — the queue-size cap -/

set_option maxRecDepth 8000 in
/-- C6 counterexample: a sequence of ordinary operations — 100 enqueues,
one advance, one further enqueue, the loop toggle, one natural track end —
drives `pending` to 101 tracks, exceeding the configured maximum of 100:
the loop re-insertion of the `end` listener is not guarded by the cap. -/
theorem queue_cap_exceeded_cex :
    musicMaxQueueSize <
      (runOps capOps
        (GuildQueue.mk [] none false (.bool false) musicDefaultVolume false)).songs.length := by
  decide

/-- C6 amended: an enqueue when `pending` already holds the configured
maximum is rejected by both `addToQueue` variants without mutating state
(`addedCount = 0`), so `pending` never exceeds the cap through enqueues —
but not under every operation sequence, since loop re-insertion bypasses
the cap (see the counterexample). -/
theorem enqueue_at_cap_rejected (q : GuildQueue) (t : Track)
    (h : musicMaxQueueSize ≤ q.songs.length) :
    addToQueue q t = (q, 0) ∧ addToQueueL q t = (q, 0) := by
  constructor
  · unfold addToQueue
    split
    · rfl
    · simp [ge_iff_le, h]
  · unfold addToQueueL
    split
    · rfl
    · simp [ge_iff_le, h]

/-- Witness for C6 (amended): a 100-track queue rejects a fresh track. -/
theorem enqueue_at_cap_rejected_witness :
    musicMaxQueueSize ≤
      (GuildQueue.mk fullSongs none false (.bool false) 50 false).songs.length ∧
    addToQueue (GuildQueue.mk fullSongs none false (.bool false) 50 false)
        (Track.mk "x" "ux" none (some "kx")) =
      (GuildQueue.mk fullSongs none false (.bool false) 50 false, 0) := by
  have h : musicMaxQueueSize ≤
      (GuildQueue.mk fullSongs none false (.bool false) 50 false).songs.length := by
    decide
  exact ⟨h, (enqueue_at_cap_rejected _ _ h).1⟩

/-! ## C8 — retry on play failure -/

/-- C8 counterexample: with two consecutive `updatePlayer` failures whose
player refreshes both succeed, the same track's play command is issued
three times in one advance — the retry-by-recursion of the catch block
carries no attempt counter, so the automatic retry is not bounded by
one. -/
theorem play_retry_not_bounded_by_one_cex :
    (playNextTrackL 5 ⟨[false, false, true], [true, true], true⟩
        (GuildQueue.mk [trackA] none false (.bool false) 50 false)).attempts.count trackA
      = 3 := by
  decide

/-- C8 amended: on a play-command failure the controller refreshes the
endpoint connection and retries the same track, without a bound while
refreshes succeed; once a refresh fails, the failure is surfaced to the
text channel and the controller proceeds to the next pending track
(here `b` becomes current) rather than stalling the queue. -/
theorem play_failure_surfaces_and_moves_on (tiA uA tiB uB : String)
    (spA spB : Option String) (tokA tokB : String) (pl : Bool) (vol : Int) :
    playNextTrackL 3 ⟨[false, true], [false], true⟩
        (GuildQueue.mk [Track.mk tiA uA spA (some tokA), Track.mk tiB uB spB (some tokB)]
          none pl (.bool false) vol false) =
      ⟨GuildQueue.mk [] (some (Track.mk tiB uB spB (some tokB))) pl (.bool false) vol false,
       ⟨[], [], true⟩,
       [Track.mk tiA uA spA (some tokA), Track.mk tiB uB spB (some tokB)],
       [Track.mk tiA uA spA (some tokA)],
       false⟩ :=
  rfl

/-! ## C1 — the advance race -/

/-- C1: starting from "no current track, flag clear, head track `t`
pending", two concurrently triggered play-dl `playNextTrack` calls — under
either overlapping interleaving — finish with exactly one `player.play`
command issued and exactly one track popped from `pending`, leaving
`currentTrack = t`, `pending = rest` and the flag clear; and any
invocation whose synchronous prefix runs while `processingNext` is set
(with a current track assigned and a live connection) returns immediately
without mutating anything. -/
theorem advance_race_single_play (t : Track) (rest : List Track) (pl : Bool)
    (lp : LoopVal) (vol : Int) (late : Bool) :
    (runSched (raceSched late)
        ⟨⟨GuildQueue.mk (t :: rest) none pl lp vol false, true, 0, 0, false⟩,
         .ready, .ready⟩).p1 = .done ∧
    (runSched (raceSched late)
        ⟨⟨GuildQueue.mk (t :: rest) none pl lp vol false, true, 0, 0, false⟩,
         .ready, .ready⟩).p2 = .done ∧
    (runSched (raceSched late)
        ⟨⟨GuildQueue.mk (t :: rest) none pl lp vol false, true, 0, 0, false⟩,
         .ready, .ready⟩).st.playCount = 1 ∧
    (runSched (raceSched late)
        ⟨⟨GuildQueue.mk (t :: rest) none pl lp vol false, true, 0, 0, false⟩,
         .ready, .ready⟩).st.popCount = 1 ∧
    (runSched (raceSched late)
        ⟨⟨GuildQueue.mk (t :: rest) none pl lp vol false, true, 0, 0, false⟩,
         .ready, .ready⟩).st.q = GuildQueue.mk rest (some t) pl lp vol false ∧
    (∀ s : RaceState, s.connLive = true → s.q.currentTrack.isSome = true →
      s.q.processingNext = true → segStep .ready s = (.done, s)) := by
  refine ⟨?_, ?_, ?_, ?_, ?_, ?_⟩
  · cases late <;> simp [runSched, raceSched, sysStep, segStep]
  · cases late <;> simp [runSched, raceSched, sysStep, segStep]
  · cases late <;> simp [runSched, raceSched, sysStep, segStep]
  · cases late <;> simp [runSched, raceSched, sysStep, segStep]
  · cases late <;> simp [runSched, raceSched, sysStep, segStep]
  · intro s h1 h2 h3
    obtain ⟨x, hx⟩ := Option.isSome_iff_exists.mp h2
    simp [segStep, h1, h3, hx]

/-- Witness for C1: the race run at a one-track queue, and the guard
returning unchanged on a concrete mid-advance state. -/
theorem advance_race_single_play_witness :
    (runSched (raceSched false)
        ⟨⟨GuildQueue.mk [trackA] none false (.bool false) 50 false, true, 0, 0, false⟩,
         .ready, .ready⟩).st.playCount = 1 ∧
    segStep .ready
        ⟨GuildQueue.mk [trackB] (some trackA) false (.bool false) 50 true,
         true, 0, 0, false⟩ =
      (.done,
       ⟨GuildQueue.mk [trackB] (some trackA) false (.bool false) 50 true,
        true, 0, 0, false⟩) := by
  have h := advance_race_single_play trackA [] false (.bool false) 50 false
  exact ⟨h.2.2.1, h.2.2.2.2.2 _ rfl rfl rfl⟩

/-! ## C10 — the mutual-exclusion flag is always released -/

/-- Helper: every terminating run of the Lavalink `playNextTrack` that
starts with `processingNext` clear ends with it clear — each early
return leaves it untouched, the success path and every branch of the
catch block reset it before returning or recursing. -/
theorem playNextTrackL_resets_flag : ∀ (fuel : Nat) (env : LEnv) (q : GuildQueue),
    q.processingNext = false →
    (playNextTrackL fuel env q).queue.processingNext = false := by
  intro fuel
  induction fuel with
  | zero =>
    intro env q h
    simpa [playNextTrackL] using h
  | succ n ih =>
    intro env q h
    unfold playNextTrackL
    simp only [h, Bool.false_eq_true, if_false]
    split
    · simpa [handleQueueEnd] using h
    · split
      · exact h
      · split
        · exact ih _ _ rfl
        · split
          · rfl
          · split
            · exact ih _ _ rfl
            · exact ih _ _ (by split <;> rfl)

/-- Helper: same for the play-dl `playNextTrack`: the `finally` clause
resets `processingNext` on the success path and on the catch path, and
the pre-flag early returns leave it clear. -/
theorem playNextTrackD_resets_flag (c s i : Bool) (q : GuildQueue)
    (h : q.processingNext = false) :
    (playNextTrackD c s i q).1.processingNext = false := by
  unfold playNextTrackD
  split
  · exact h
  · split
    · exact h
    · split
      · exact h
      · cases hc : q.currentTrack <;> cases hs : q.songs <;>
          simp only [hc, hs] <;> split_ifs <;> rfl

/-- C10: any invocation of `playNextTrack` (either variant) that finds the
`processingNext` flag clear — in particular any invocation that sets it —
completes with the flag clear again, on every path: success, empty queue,
missing playable token, stream/play failure, and retry.  No execution path
leaves `processingNext` permanently `true`. -/
theorem processingNext_never_stuck (fuel : Nat) (env : LEnv) (c s i : Bool)
    (q : GuildQueue) (h : q.processingNext = false) :
    (playNextTrackL fuel env q).queue.processingNext = false ∧
    (playNextTrackD c s i q).1.processingNext = false :=
  ⟨playNextTrackL_resets_flag fuel env q h, playNextTrackD_resets_flag c s i q h⟩

/-- Witness for C10: a failing-then-retrying Lavalink run and a
stream-failure play-dl run both release the flag. -/
theorem processingNext_never_stuck_witness :
    (playNextTrackL 2 ⟨[false], [false], true⟩
        (GuildQueue.mk [trackA, trackB] none false (.bool false) 50
          false)).queue.processingNext = false ∧
    (playNextTrackD true false true
        (GuildQueue.mk [trackA] none false (.bool false) 50 false)).1.processingNext
      = false :=
  ⟨(processingNext_never_stuck 2 ⟨[false], [false], true⟩ true false true
      (GuildQueue.mk [trackA, trackB] none false (.bool false) 50 false) rfl).1,
   (processingNext_never_stuck 2 ⟨[false], [false], true⟩ true false true
      (GuildQueue.mk [trackA] none false (.bool false) 50 false) rfl).2⟩

end MusicBot
